import Mathlib

/-!
Shallow embedding of the ury_companion_pos_website front end.

Sources embedded here:
  - src/src/components/SubCategoryCard.tsx (the ProductDialog component that
    is appended in that file: cart-line matching, totals, quantity and
    custom-rate input handlers, commit logic);
  - src/src/components/MenuList.tsx (the filteredItems predicate);
  - src/unnamed/part_000 and src/unnamed/part_001 (two revisions of the
    KeyboardContext focus router).

JavaScript numbers are modelled as `Option Rat`: `none` stands for NaN and
`some q` for a finite value.  The infinite values never arise in the states
the claims quantify over; string forms such as "Infinity" are therefore
mapped to `none` (outside the modelled finite domain, noted again at the
definition).  Machine floats are modelled by exact rationals: every literal
appearing in the claims is exactly representable, so no rounding is hidden.
-/

/-- JavaScript number domain: `none` is NaN, `some q` a finite value. -/
abbrev JSNum := Option ℚ

/-- Addition on JS numbers: NaN absorbs. -/
def jsAdd : JSNum → JSNum → JSNum
  | some a, some b => some (a + b)
  | _, _ => none

/-- Multiplication on JS numbers: NaN absorbs. -/
def jsMul : JSNum → JSNum → JSNum
  | some a, some b => some (a * b)
  | _, _ => none

/-- Whitespace characters skipped by parseInt / parseFloat / Number. -/
def jsWhitespaceChar (c : Char) : Bool :=
  c == ' ' || c == '\t' || c == '\n' || c == '\r'

/-- Decimal digit test. -/
def decDigit (c : Char) : Bool :=
  ('0' ≤ c) && (c ≤ '9')

/-- Numeric value of a decimal digit character. -/
def digitVal (c : Char) : Nat := c.toNat - '0'.toNat

/-- Value of a decimal digit string, most significant first. -/
def natOfDigits (ds : List Char) : Nat :=
  ds.foldl (fun acc c => 10 * acc + digitVal c) 0

/-- Strip an optional leading sign, returning (isNegative, rest). -/
def splitSign : List Char → (Bool × List Char)
  | '-' :: cs => (true, cs)
  | '+' :: cs => (false, cs)
  | cs => (false, cs)

/-- JavaScript parseInt(s, 10): skip leading whitespace, optional sign, then
the longest run of decimal digits; NaN (here `none`) when no digit is found.
Trailing garbage is ignored, exactly as in the browser. -/
def jsParseInt (s : String) : Option Int :=
  let cs := s.toList.dropWhile jsWhitespaceChar
  let p := splitSign cs
  let ds := p.2.takeWhile decDigit
  if ds.isEmpty then none
  else some ((if p.1 then -1 else 1) * (natOfDigits ds : Int))

/-- Mantissa of a decimal literal: digits, optionally a dot and more digits,
or a dot followed by digits.  Returns the value as an exact numerator and
power-of-ten denominator pair, with the unconsumed rest. -/
def parseMantissa (cs : List Char) : Option ((Nat × Nat) × List Char) :=
  let intDs := cs.takeWhile decDigit
  let rest1 := cs.dropWhile decDigit
  match rest1 with
  | '.' :: rest2 =>
      let fracDs := rest2.takeWhile decDigit
      let rest3 := rest2.dropWhile decDigit
      if intDs.isEmpty && fracDs.isEmpty then none
      else
        let den := 10 ^ fracDs.length
        some ((natOfDigits intDs * den + natOfDigits fracDs, den), rest3)
  | _ =>
      if intDs.isEmpty then none
      else some ((natOfDigits intDs, 1), rest1)

/-- Optional exponent part `e`/`E`, sign, digits.  When the digits are
missing the exponent marker is not consumed (parseFloat("1e") is 1). -/
def parseExponent (cs : List Char) : (Int × List Char) :=
  match cs with
  | c :: rest =>
      if c == 'e' || c == 'E' then
        let p := splitSign rest
        let ds := p.2.takeWhile decDigit
        if ds.isEmpty then (0, cs)
        else ((if p.1 then -1 else 1) * (natOfDigits ds : Int), p.2.dropWhile decDigit)
      else (0, cs)
  | [] => (0, [])

/-- Exact rational value of a signed decimal literal: sign times
(num / den) times ten to the exponent, assembled as a single normalized
fraction. -/
def ratOfParts (neg : Bool) (num den : Nat) (e : Int) : ℚ :=
  if 0 ≤ e then
    mkRat ((if neg then -1 else 1) * ((num * 10 ^ e.toNat : Nat) : Int)) den
  else
    mkRat ((if neg then -1 else 1) * (num : Int)) (den * 10 ^ (-e).toNat)

/-- JavaScript parseFloat: skip whitespace, optional sign, longest decimal
mantissa with optional exponent; trailing garbage ignored; NaN (`none`) when
no mantissa parses.  The literal "Infinity" lies outside the finite domain
modelled here and also maps to `none`. -/
def jsParseFloat (s : String) : Option ℚ :=
  let cs := s.toList.dropWhile jsWhitespaceChar
  let p := splitSign cs
  match parseMantissa p.2 with
  | none => none
  | some mr =>
      let er := parseExponent mr.2
      some (ratOfParts p.1 mr.1.1 mr.1.2 er.1)

/-- Full-string decimal parse used by Number(): sign, mantissa, optional
exponent, and nothing left over. -/
def jsDecimalFull (cs : List Char) : Option ℚ :=
  let p := splitSign cs
  match parseMantissa p.2 with
  | none => none
  | some mr =>
      let er := parseExponent mr.2
      if er.2.isEmpty then some (ratOfParts p.1 mr.1.1 mr.1.2 er.1)
      else none

/-- Value of a digit in the given radix, when valid. -/
def radixDigitVal (radix : Nat) (c : Char) : Option Nat :=
  let v :=
    if ('0' ≤ c) && (c ≤ '9') then some (c.toNat - '0'.toNat)
    else if ('a' ≤ c) && (c ≤ 'f') then some (c.toNat - 'a'.toNat + 10)
    else if ('A' ≤ c) && (c ≤ 'F') then some (c.toNat - 'A'.toNat + 10)
    else none
  match v with
  | some n => if n < radix then some n else none
  | none => none

/-- Radix-prefixed integer tail for Number(): every remaining character must
be a digit of the radix and at least one digit must be present. -/
def jsRadixTail (radix : Nat) (cs : List Char) : Option ℚ :=
  match cs with
  | [] => none
  | _ =>
    let step : Option Nat → Char → Option Nat := fun acc c =>
      match acc, radixDigitVal radix c with
      | some a, some d => some (radix * a + d)
      | _, _ => none
    (cs.foldl step (some 0)).map (fun n => mkRat (n : Int) 1)

/-- JavaScript Number(s): trim whitespace, empty means 0, `0x`/`0o`/`0b`
radix literals, otherwise a full-string decimal literal; anything else is
NaN (`none`).  ("Infinity" is outside the modelled finite domain.) -/
def jsNumber (s : String) : JSNum :=
  let cs := ((s.toList.dropWhile jsWhitespaceChar).reverse.dropWhile jsWhitespaceChar).reverse
  match cs with
  | [] => some 0
  | '0' :: c :: rest =>
      if c == 'x' || c == 'X' then jsRadixTail 16 rest
      else if c == 'o' || c == 'O' then jsRadixTail 8 rest
      else if c == 'b' || c == 'B' then jsRadixTail 2 rest
      else jsDecimalFull cs
  | _ => jsDecimalFull cs

/-- String form of an integer JS number, decimal with optional minus sign,
matching Number.prototype.toString for integral values. -/
def jsIntToString (n : Int) : String :=
  if n < 0 then "-" ++ Nat.repr (-n).toNat else Nat.repr n.toNat

/-- Left-pad a numeral with zeros to the given width. -/
def padZeros (s : String) (k : Nat) : String :=
  if s.length < k then String.mk (List.replicate (k - s.length) '0') ++ s else s

/-- Decimal string of a nonnegative rational whose denominator divides a
power of ten, matching Number.prototype.toString on such values (the only
values the embedded code ever stores).  The fallback branch is unreachable
for those values. -/
def ratToDecimalStringNonneg (q : ℚ) : String :=
  match (List.range 65).find? (fun k => 10 ^ k % q.den = 0) with
  | some k =>
      let scaled := q.num.toNat * (10 ^ k / q.den)
      if k = 0 then Nat.repr scaled
      else
        let ip := scaled / 10 ^ k
        let fp := scaled % 10 ^ k
        Nat.repr ip ++ "." ++ padZeros (Nat.repr fp) k
  | none => Nat.repr q.num.toNat ++ "/" ++ Nat.repr q.den

/-- Decimal string of a rational, with sign. -/
def ratToDecimalString (q : ℚ) : String :=
  if q < 0 then "-" ++ ratToDecimalStringNonneg (-q) else ratToDecimalStringNonneg q

/-- String form of a JS number, with NaN printed as in JavaScript. -/
def jsNumToString (x : JSNum) : String :=
  match x with
  | none => "NaN"
  | some q => ratToDecimalString q

/-- JavaScript `o || d` on an optional string: the default replaces both a
missing value and the empty (falsy) string. -/
def jsOrStr (o : Option String) (d : String) : String :=
  match o with
  | none => d
  | some s => if s = "" then d else s

/-!
Data model.  MenuItem mirrors the fields of the read-model items used by
MenuList.tsx and the ProductDialog; OrderItem mirrors the cart line shape
used by the store (snapshot of a MenuItem plus quantity, resolved price,
optional comment, custom rate, uniqueId, and the variant and add-on
customization recorded on the line).
-/

/-- Menu item from the external read model (MenuList.tsx, ProductDialog). -/
structure MenuItem where
  id : String
  name : String
  item : String
  item_name : String
  price : ℚ
  image : Option String
  course : String
  description : String
  special_dish : Nat
  tax_rate : ℚ
  main_category : String
  sub_category : String
deriving DecidableEq

/-- Variant shown in the dialog (id, name, price). -/
structure Variant where
  id : String
  name : String
  price : ℚ
deriving DecidableEq

/-- Add-on as selected in the dialog (id, name, price; the category field of
the Addon interface never reaches the cart and is omitted from lines). -/
structure AddonSel where
  id : String
  name : String
  price : ℚ
deriving DecidableEq

/-- Cart line (OrderItem): a MenuItem snapshot plus quantity, resolved
price, optional comment, custom rate, uniqueId, and customization. -/
structure OrderItem where
  id : String
  name : String
  item : String
  item_name : String
  price : JSNum
  image : Option String
  course : String
  description : String
  special_dish : Nat
  tax_rate : ℚ
  quantity : Int
  comment : Option String
  customRate : Option JSNum
  uniqueId : Option String
  selectedVariant : Option Variant
  selectedAddons : Option (List AddonSel)
deriving DecidableEq

/-- Cart line fields inherited when a MenuItem is spread into an OrderItem
(lines 291 to 297 of the dialog source): everything not overridden comes
from the menu item, and fields absent on a MenuItem are absent (none). -/
def orderItemOfMenuItem (m : MenuItem) : OrderItem :=
  { id := m.id
    name := m.name
    item := m.item
    item_name := m.item_name
    price := some m.price
    image := m.image
    course := m.course
    description := m.description
    special_dish := m.special_dish
    tax_rate := m.tax_rate
    quantity := 0
    comment := none
    customRate := none
    uniqueId := none
    selectedVariant := none
    selectedAddons := none }

/-- Child-table row of the fetched Item doc referencing another item. -/
structure EntryRef where
  item : String
deriving DecidableEq

/-- Fetched Item doc: the dialog reads image, name, item and the two custom
child tables; a table that is absent on the doc is `none` (the source tests
presence with Array.isArray). -/
structure ItemDoc where
  item : String
  name : String
  image : Option String
  custom_pos_add_on_items : Option (List EntryRef)
  custom_pos_item_variants : Option (List EntryRef)
deriving DecidableEq

/-- Quick filter of MenuList: all items or special dishes only. -/
inductive QuickFilter where
  | all : QuickFilter
  | special : QuickFilter
deriving DecidableEq

/-- ProductDialog state: the store fields it reads (menuItems, activeOrders,
selectedItem), its props (editMode, initialVariant, initialAddons,
itemToReplace) and its local state hooks (itemDoc, selectedAddons,
quantity, comments, customRate). -/
structure DialogState where
  menuItems : List MenuItem
  activeOrders : List OrderItem
  selectedItem : Option MenuItem
  itemDoc : Option ItemDoc
  editMode : Bool
  initialVariant : Option Variant
  initialAddons : List AddonSel
  itemToReplace : Option OrderItem
  selectedAddons : List AddonSel
  quantity : String
  comments : String
  customRate : String
deriving DecidableEq

/-!
ProductDialog derived values and handlers (SubCategoryCard.tsx, the
ProductDialog component).
-/

/-- Predicate of the `activeOrders.find` on lines 89 to 96: item id equal;
a line without a variant passes unconditionally, a line with a variant
needs its id equal to the id of the initial variant (comparison with the
undefined id of a missing initial variant is false); a line without an
add-on list passes unconditionally, a line with one needs equal length and
each of its add-on ids present among the initial add-on ids. -/
def cartLineMatches (s : DialogState) (sel : MenuItem) (order : OrderItem) : Bool :=
  order.id == sel.id &&
  (match order.selectedVariant with
   | none => true
   | some v =>
     match s.initialVariant with
     | none => false
     | some iv => v.id == iv.id) &&
  (match order.selectedAddons with
   | none => true
   | some ads =>
     (ads.length == s.initialAddons.length) &&
     ads.all (fun addon => s.initialAddons.any (fun initAddon => initAddon.id == addon.id)))

/-- existingCartItem (lines 89 to 96): first cart line matching the
predicate, null when no item is selected. -/
def existingCartItem (s : DialogState) : Option OrderItem :=
  match s.selectedItem with
  | none => none
  | some sel => s.activeOrders.find? (cartLineMatches s sel)

/-- Effect of the Item doc fetch (lines 102 to 114): no selected item
clears the doc; a resolved fetch stores the doc, a rejected one clears it. -/
def applyItemDocFetch (s : DialogState) (result : Except Unit ItemDoc) : DialogState :=
  match s.selectedItem with
  | none => { s with itemDoc := none }
  | some _ =>
    match result with
    | Except.ok doc => { s with itemDoc := some doc }
    | Except.error _ => { s with itemDoc := none }

/-- addonDetails (lines 117 to 134): empty unless the doc is present and
carries the add-on child table; each entry resolves against menuItems, with
a zero-price placeholder when the referenced item is unknown.  (The
trailing filter(Boolean) of the source never drops an object and is a
no-op.) -/
def addonDetails (s : DialogState) : List AddonSel :=
  match s.itemDoc with
  | none => []
  | some doc =>
    match doc.custom_pos_add_on_items with
    | none => []
    | some entries =>
      entries.map (fun entry =>
        match s.menuItems.find? (fun menuItem => menuItem.item == entry.item) with
        | some menuAddon => { id := menuAddon.item, name := menuAddon.item_name, price := menuAddon.price }
        | none => { id := entry.item, name := entry.item, price := 0 })

/-- variantDetails (lines 136 to 153), same shape as addonDetails. -/
def variantDetails (s : DialogState) : List AddonSel :=
  match s.itemDoc with
  | none => []
  | some doc =>
    match doc.custom_pos_item_variants with
    | none => []
    | some entries =>
      entries.map (fun entry =>
        match s.menuItems.find? (fun menuItem => menuItem.item == entry.item) with
        | some menuVariant => { id := menuVariant.item, name := menuVariant.item_name, price := menuVariant.price }
        | none => { id := entry.item, name := entry.item, price := 0 })

/-- basePrice (line 213): a non-empty custom rate string is truthy and is
converted with Number(); otherwise a truthy (non-zero) selected-item price
is used, and 0 when the price is 0 or no item is selected. -/
def basePrice (s : DialogState) : JSNum :=
  if s.customRate ≠ "" then jsNumber s.customRate
  else
    match s.selectedItem with
    | some sel => if sel.price ≠ 0 then some sel.price else some 0
    | none => some 0

/-- numericQuantity (line 214): 0 for the empty string, otherwise
parseInt(quantity, 10). -/
def numericQuantity (s : DialogState) : JSNum :=
  if s.quantity = "" then some 0
  else (jsParseInt s.quantity).map (fun n => (n : ℚ))

/-- addonsTotal (line 215): reduce over the selected add-on prices. -/
def addonsTotal (s : DialogState) : ℚ :=
  s.selectedAddons.foldl (fun sum addon => sum + addon.price) 0

/-- total (line 216). -/
def total (s : DialogState) : JSNum :=
  jsMul (jsAdd (basePrice s) (some (addonsTotal s))) (numericQuantity s)

/-- handleQuantityChange (lines 218 to 229): empty clears; otherwise the
parseInt value is stored in canonical form when it lies in [0, 99], and
the state is untouched when parseInt yields NaN or an out-of-range value. -/
def handleQuantityChange (value : String) (s : DialogState) : DialogState :=
  if value = "" then { s with quantity := "" }
  else
    match jsParseInt value with
    | none => s
    | some num =>
      if 0 ≤ num ∧ num ≤ 99 then { s with quantity := jsIntToString num } else s

/-- handleCustomRateChange (lines 231 to 242): empty clears; otherwise the
raw string is stored verbatim when parseFloat yields a nonnegative number,
and the state is untouched when parseFloat yields NaN or a negative. -/
def handleCustomRateChange (value : String) (s : DialogState) : DialogState :=
  if value = "" then { s with customRate := "" }
  else
    match jsParseFloat value with
    | none => s
    | some num =>
      if 0 ≤ num then { s with customRate := value } else s

/-- handleIncrement (lines 265 to 270): parseInt of the current string
(0 for empty); NaN compares false with 99 and leaves the state alone. -/
def handleIncrement (s : DialogState) : DialogState :=
  let currentNum : Option Int := if s.quantity = "" then some 0 else jsParseInt s.quantity
  match currentNum with
  | none => s
  | some c => if c < 99 then { s with quantity := jsIntToString (c + 1) } else s

/-- handleDecrement (lines 272 to 277). -/
def handleDecrement (s : DialogState) : DialogState :=
  let currentNum : Option Int := if s.quantity = "" then some 0 else jsParseInt s.quantity
  match currentNum with
  | none => s
  | some c => if c > 0 then { s with quantity := jsIntToString (c - 1) } else s

/-- Modelled from the spec: the cart store collaborator (pos-store, not
part of the inspected sources) exposes add-order-line; a new line is
appended to the active order lines. -/
def addToOrder (cart : List OrderItem) (line : OrderItem) : List OrderItem :=
  cart ++ [line]

/-- Modelled from the spec: the cart store collaborator exposes
remove-order-line by uniqueId; the lines carrying that uniqueId are
dropped (uniqueIds distinguish lines, so at most one is dropped in any
reachable cart). -/
def removeFromOrder (cart : List OrderItem) (uid : String) : List OrderItem :=
  cart.filter (fun line => !(line.uniqueId == some uid))

/-- Modelled from the spec: the cart store collaborator exposes
get-current-quantity-of-an-item, modelled as the total quantity of the
lines whose id matches the item. -/
def getItemQuantityFromCart (cart : List OrderItem) (item : MenuItem) : Int :=
  (cart.filter (fun line => line.id == item.id)).foldl (fun acc line => acc + line.quantity) 0

/-- Main cart line built on lines 291 to 297: the selected item spread,
with quantity, the resolved basePrice, the comment, and the custom rate
(Number of the string when non-empty, absent otherwise). -/
def mainOrderLine (s : DialogState) (sel : MenuItem) (n : Int) : OrderItem :=
  { orderItemOfMenuItem sel with
      quantity := n
      price := basePrice s
      comment := some s.comments
      customRate := if s.customRate ≠ "" then some (jsNumber s.customRate) else none }

/-- Add-on cart line built on lines 301 to 324: the full menu item when the
add-on id resolves, otherwise the literal fallback object; either way the
line carries the parent quantity and the add-on price. -/
def addonOrderLine (s : DialogState) (n : Int) (addon : AddonSel) : OrderItem :=
  match s.menuItems.find? (fun item => item.item == addon.id) with
  | some menuAddon =>
    { orderItemOfMenuItem menuAddon with quantity := n, price := some addon.price }
  | none =>
    { id := addon.id
      name := addon.name
      item := addon.id
      item_name := addon.name
      price := some addon.price
      image := none
      course := ""
      description := ""
      special_dish := 0
      tax_rate := 0
      quantity := n
      comment := none
      customRate := none
      uniqueId := none
      selectedVariant := none
      selectedAddons := none }

/-- handleAddToOrder (lines 279 to 327): guard on parseInt of the quantity
string (NaN or 0 aborts); in edit mode with a truthy uniqueId the old line
is removed first; then the main line and one line per selected add-on are
added.  The selected item is present whenever the handler can run, since
the component returns null before defining any UI when it is missing
(line 210); the none branch returns the cart unchanged and is unreachable. -/
def handleAddToOrder (s : DialogState) : List OrderItem :=
  match jsParseInt s.quantity with
  | none => s.activeOrders
  | some n =>
    if n = 0 then s.activeOrders
    else
      match s.selectedItem with
      | none => s.activeOrders
      | some sel =>
        let cart1 :=
          if s.editMode then
            match s.itemToReplace with
            | some rep =>
              match rep.uniqueId with
              | some uid => if uid ≠ "" then removeFromOrder s.activeOrders uid else s.activeOrders
              | none => s.activeOrders
            | none => s.activeOrders
          else s.activeOrders
        let cart2 := addToOrder cart1 (mainOrderLine s sel n)
        s.selectedAddons.foldl (fun c addon => addToOrder c (addonOrderLine s n addon)) cart2

/-- Commit button disabled condition (line 540): numericQuantity === 0;
NaN === 0 is false. -/
def isCommitDisabled (s : DialogState) : Bool :=
  decide (numericQuantity s = some 0)

/-- Cart pre-fill effect (lines 164 to 175): outside edit mode with an item
selected, a matching cart line seeds quantity, comments and custom rate;
otherwise the quantity is seeded from the store helper. -/
def applyCartPrefill (s : DialogState) : DialogState :=
  if s.editMode then s
  else
    match s.selectedItem with
    | none => s
    | some sel =>
      match existingCartItem s with
      | some line =>
        { s with
            quantity := jsIntToString line.quantity
            comments := jsOrStr line.comment ""
            customRate := jsOrStr (line.customRate.map jsNumToString) "" }
      | none => { s with quantity := jsIntToString (getItemQuantityFromCart s.activeOrders sel) }

/-!
KeyboardContext (src/unnamed/part_000, the revision with the buffered
keyboardInputValue, called rev0 here; and src/unnamed/part_001, the
revision without it, called rev1).

Callbacks are identified by an abstract id (a natural number); the value
currently held by the input a callback belongs to is tracked in an
environment `CBEnv`, and every onChange invocation is logged.  The open
event seeds the keyboard with the value currently held by the opening
input, which is how the only call site invokes it (handleInputFocus,
SubCategoryCard.tsx lines 244 to 254, passes the current state value).
-/

/-- Abstract identifier of an onChange callback. -/
abbrev CB := Nat

/-- Values currently held by the inputs, keyed by their callback id. -/
abbrev CBEnv := CB → String

/-- Delivering a value to a callback updates the value its input holds. -/
def deliver (env : CBEnv) (cb : CB) (v : String) : CBEnv :=
  fun c => if c = cb then v else env c

/-- Events against the keyboard context: open for an input (with its id and
callback), a keystroke-driven update, and close. -/
inductive KBEvent where
  | openK : String → CB → KBEvent
  | updateK : String → KBEvent
  | closeK : KBEvent
deriving DecidableEq

/-- State of the rev0 provider (part_000): open flag, active input id,
stored callback, and the buffered keyboardInputValue. -/
structure KB0 where
  isKeyboardOpen : Bool
  activeInput : Option String
  currentOnChange : Option CB
  keyboardInputValue : String
deriving DecidableEq

/-- State of the rev1 provider (part_001): no buffered value. -/
structure KB1 where
  isKeyboardOpen : Bool
  activeInput : Option String
  currentOnChange : Option CB
deriving DecidableEq

/-- Run state for rev0: provider state, input values, onChange log. -/
structure Run0 where
  st : KB0
  env : CBEnv
  log : List (CB × String)

/-- Run state for rev1. -/
structure Run1 where
  st : KB1
  env : CBEnv
  log : List (CB × String)

/-- rev0 step (part_000 lines 45 to 78).  openKeyboard stores the input id
and callback and buffers the current value of that input; updateKeyboardValue
buffers the value and delivers it to the stored callback; closeKeyboard
first flushes the buffered value to the stored callback, then clears the
binding and the buffer. -/
def step0 (r : Run0) : KBEvent → Run0
  | KBEvent.openK inputId cb =>
    { st := { isKeyboardOpen := true, activeInput := some inputId,
              currentOnChange := some cb, keyboardInputValue := r.env cb }
      env := r.env
      log := r.log }
  | KBEvent.updateK v =>
    match r.st.currentOnChange with
    | some cb =>
      { st := { r.st with keyboardInputValue := v }
        env := deliver r.env cb v
        log := r.log ++ [(cb, v)] }
    | none =>
      { st := { r.st with keyboardInputValue := v }
        env := r.env
        log := r.log }
  | KBEvent.closeK =>
    match r.st.currentOnChange with
    | some cb =>
      { st := { isKeyboardOpen := false, activeInput := none,
                currentOnChange := none, keyboardInputValue := "" }
        env := deliver r.env cb r.st.keyboardInputValue
        log := r.log ++ [(cb, r.st.keyboardInputValue)] }
    | none =>
      { st := { isKeyboardOpen := false, activeInput := none,
                currentOnChange := none, keyboardInputValue := "" }
        env := r.env
        log := r.log }

/-- rev1 step (part_001 lines 44 to 69).  openKeyboard stores the input id
and callback; updateKeyboardValue delivers straight to the stored callback;
closeKeyboard only clears the binding. -/
def step1 (r : Run1) : KBEvent → Run1
  | KBEvent.openK inputId cb =>
    { st := { isKeyboardOpen := true, activeInput := some inputId, currentOnChange := some cb }
      env := r.env
      log := r.log }
  | KBEvent.updateK v =>
    match r.st.currentOnChange with
    | some cb => { st := r.st, env := deliver r.env cb v, log := r.log ++ [(cb, v)] }
    | none => { st := r.st, env := r.env, log := r.log }
  | KBEvent.closeK =>
    { st := { isKeyboardOpen := false, activeInput := none, currentOnChange := none }
      env := r.env
      log := r.log }

/-- Run a rev0 trace. -/
def run0 (events : List KBEvent) (r : Run0) : Run0 :=
  events.foldl step0 r

/-- Run a rev1 trace. -/
def run1 (events : List KBEvent) (r : Run1) : Run1 :=
  events.foldl step1 r

/-- Initial rev0 state over a given input environment. -/
def initRun0 (env : CBEnv) : Run0 :=
  { st := { isKeyboardOpen := false, activeInput := none,
            currentOnChange := none, keyboardInputValue := "" }
    env := env
    log := [] }

/-- Initial rev1 state over a given input environment. -/
def initRun1 (env : CBEnv) : Run1 :=
  { st := { isKeyboardOpen := false, activeInput := none, currentOnChange := none }
    env := env
    log := [] }

/-- Forgetting the rev0 buffer yields a rev1 state. -/
def projKB (s : KB0) : KB1 :=
  { isKeyboardOpen := s.isKeyboardOpen
    activeInput := s.activeInput
    currentOnChange := s.currentOnChange }

/-- A run of keystrokes: one updateKeyboardValue event per value. -/
def updateEvents (vs : List String) : List KBEvent :=
  vs.map KBEvent.updateK

/-!
MenuList (src/src/components/MenuList.tsx).
-/

/-- Substring test on character lists, as String.prototype.includes. -/
def listContainsSub (needle : List Char) : List Char → Bool
  | [] => needle.isEmpty
  | c :: t => needle.isPrefixOf (c :: t) || listContainsSub needle t

/-- JavaScript String.prototype.includes. -/
def strIncludes (hay needle : String) : Bool :=
  listContainsSub needle.toList hay.toList

/-- MenuList state: store fields read by the filteredItems memo.  The
selected category and sub-category are nullable strings. -/
structure MenuState where
  menuItems : List MenuItem
  selectedCategory : Option String
  selectedSubCategory : Option String
  searchQuery : String
  quickFilter : QuickFilter
deriving DecidableEq

/-- Truthiness of a nullable string: null/undefined and "" are falsy. -/
def optStrTruthy (o : Option String) : Bool :=
  match o with
  | none => false
  | some s => s ≠ ""

/-- Filter predicate of filteredItems (MenuList.tsx lines 40 to 53):
category, sub-category, search and quick-filter clauses, conjoined. -/
def itemMatchesFilters (st : MenuState) (item : MenuItem) : Bool :=
  let searchTerm := st.searchQuery.toLower
  let matchesCategory :=
    !optStrTruthy st.selectedCategory ||
      (match st.selectedCategory with
       | none => false
       | some c => item.main_category == c)
  let matchesSubCategory :=
    !optStrTruthy st.selectedSubCategory ||
      (match st.selectedSubCategory with
       | none => false
       | some c => item.sub_category == c)
  let matchesSearch :=
    (st.searchQuery == "") ||
      strIncludes item.name.toLower searchTerm ||
      strIncludes item.item.toLower searchTerm
  let matchesFilter :=
    match st.quickFilter with
    | QuickFilter.all => true
    | QuickFilter.special => item.special_dish == 1
  matchesCategory && matchesSubCategory && matchesSearch && matchesFilter

/-- filteredItems (lines 40 to 53). -/
def filteredItems (st : MenuState) : List MenuItem :=
  st.menuItems.filter (itemMatchesFilters st)

/-!
Specification-side definitions, written from the words of the spec and the
claims (only used to compare against the source-derived definitions above),
plus concrete fixtures used by witnesses and counterexamples.
-/

/-- Spec wording of claim C3: a cart line is the same customization when
the item ids are equal, the variant id of the line equals the id of the
initial variant, and the add-on ids of the line form exactly the same
unordered set as the initial add-on ids. -/
def specSameCustomization (s : DialogState) (sel : MenuItem) (order : OrderItem) : Bool :=
  (order.id == sel.id) &&
  (order.selectedVariant.map Variant.id == s.initialVariant.map Variant.id) &&
  decide ((((order.selectedAddons.getD []).map AddonSel.id).toFinset)
            = ((s.initialAddons.map AddonSel.id).toFinset))

/-- Spec wording of claim C4: a quantity string is acceptable when it
denotes an integer in [0, 99]. -/
def specQuantityAcceptedB (q : String) : Bool :=
  match jsNumber q with
  | some v => decide (v.den = 1) && decide (0 ≤ v) && decide (v ≤ 99)
  | none => false

/-- Spec wording of claim C8: a custom-rate string is acceptable when it is
empty or denotes a nonnegative number. -/
def specRateAcceptedB (v : String) : Bool :=
  (v == "") ||
  (match jsNumber v with
   | some q => decide (0 ≤ q)
   | none => false)

/-- Spec wording of claim C9: an item matches the category and sub-category
selection, an item passing when no category, or no sub-category, is
selected. -/
def specCategorySubMatch (st : MenuState) (item : MenuItem) : Bool :=
  (!optStrTruthy st.selectedCategory ||
    (match st.selectedCategory with
     | none => false
     | some c => item.main_category == c)) &&
  (!optStrTruthy st.selectedSubCategory ||
    (match st.selectedSubCategory with
     | none => false
     | some c => item.sub_category == c))

/-- Quick-filter clause on its own, for stating claim C9. -/
def specQuickFilterMatch (st : MenuState) (item : MenuItem) : Bool :=
  match st.quickFilter with
  | QuickFilter.all => true
  | QuickFilter.special => item.special_dish == 1

/-- Integer view of the quantity string as the increment and decrement
handlers read it (lines 266 and 273): 0 for the empty string, otherwise
parseInt. -/
def currentQuantityNum (s : DialogState) : Option Int :=
  if s.quantity = "" then some 0 else jsParseInt s.quantity

/-- Fixture: a plain menu item priced 10.00. -/
def sampleItem : MenuItem :=
  { id := "ITEM-001", name := "Masala Dosa", item := "ITEM-001",
    item_name := "Masala Dosa", price := 10, image := none, course := "Main",
    description := "", special_dish := 0, tax_rate := 0,
    main_category := "South Indian", sub_category := "Dosa" }

/-- Fixture: a special menu item in another category. -/
def sampleSpecialItem : MenuItem :=
  { id := "ITEM-002", name := "Chef Special", item := "ITEM-002",
    item_name := "Chef Special", price := 20, image := none, course := "Main",
    description := "", special_dish := 1, tax_rate := 0,
    main_category := "North Indian", sub_category := "Curry" }

/-- Fixture: an add-on priced 2.50. -/
def sampleAddon : AddonSel :=
  { id := "ADDON-001", name := "Extra Ghee", price := mkRat 5 2 }

/-- Fixture: a variant. -/
def sampleVariant : Variant :=
  { id := "VAR-001", name := "Large", price := 12 }

/-- Fixture: dialog over sampleItem with everything else empty. -/
def baseDialog : DialogState :=
  { menuItems := [sampleItem], activeOrders := [], selectedItem := some sampleItem,
    itemDoc := none, editMode := false, initialVariant := none, initialAddons := [],
    itemToReplace := none, selectedAddons := [], quantity := "0", comments := "",
    customRate := "" }

/-- Fixture for C1: one 2.50 add-on selected at quantity 3. -/
def c1ExampleState : DialogState :=
  { baseDialog with selectedAddons := [sampleAddon], quantity := "3" }

/-- Fixture for C1: same dialog with custom rate 7.5 entered. -/
def c1CustomRateState : DialogState :=
  { c1ExampleState with customRate := "7.5" }

/-- Fixture for C2: the cart line being edited, uniqueId uid-1. -/
def c2ReplacedLine : OrderItem :=
  { orderItemOfMenuItem sampleItem with quantity := 1, uniqueId := some "uid-1" }

/-- Fixture for C2: edit-mode dialog replacing c2ReplacedLine at quantity 2
with one add-on selected. -/
def c2State : DialogState :=
  { baseDialog with
      editMode := true
      itemToReplace := some c2ReplacedLine
      activeOrders := [c2ReplacedLine]
      selectedAddons := [sampleAddon]
      quantity := "2" }

/-- Fixture for C3: a cart line for sampleItem with no recorded variant and
no recorded add-on list. -/
def c3Order : OrderItem :=
  { orderItemOfMenuItem sampleItem with quantity := 2, uniqueId := some "uid-3" }

/-- Fixture for C3: dialog opened with an initial variant and one initial
add-on while the cart holds c3Order. -/
def c3State : DialogState :=
  { baseDialog with
      activeOrders := [c3Order]
      initialVariant := some sampleVariant
      initialAddons := [sampleAddon] }

/-- Fixture for C10: edit-mode dialog whose quantity fell to 0. -/
def c10State : DialogState :=
  { baseDialog with
      editMode := true
      itemToReplace := some c2ReplacedLine
      activeOrders := [c2ReplacedLine]
      quantity := "0" }

/-- Fixture: menu state with a selected category and sub-category and an
empty search. -/
def sampleMenuState : MenuState :=
  { menuItems := [sampleItem, sampleSpecialItem],
    selectedCategory := some "South Indian",
    selectedSubCategory := some "Dosa",
    searchQuery := "", quickFilter := QuickFilter.all }

/-- Fixture: every input currently holds the text "10". -/
def sampleEnv : CBEnv := fun _ => "10"

/-- Fixture for C4: dialog whose quantity state currently reads "3". -/
def c4PriorState : DialogState :=
  { baseDialog with quantity := "3" }

/-- Fixture: an Item doc carrying neither child table. -/
def sampleDoc : ItemDoc :=
  { item := "ITEM-001", name := "Masala Dosa", image := none,
    custom_pos_add_on_items := none, custom_pos_item_variants := none }

/-!
Helper lemmas shared by the claim theorems.
-/

/-- Folding addToOrder over a list appends the mapped lines. -/
theorem foldl_addToOrder_map (f : AddonSel → OrderItem) :
    ∀ (l : List AddonSel) (cart : List OrderItem),
      l.foldl (fun c addon => addToOrder c (f addon)) cart = cart ++ l.map f := by
  intro l
  induction l with
  | nil => intro cart; simp
  | cons a t ih =>
    intro cart
    simp only [List.foldl_cons, List.map_cons, ih]
    simp [addToOrder]

/-- Length of the lines surviving a removal: the original length minus the
number of matching lines. -/
theorem length_filter_not {α : Type} (p : α → Bool) (l : List α) :
    (l.filter (fun x => !(p x))).length = l.length - l.countP p := by
  induction l with
  | nil => simp
  | cons a t ih =>
    have hle : t.countP p ≤ t.length := List.countP_le_length p
    by_cases h : p a
    · simp [List.filter_cons, List.countP_cons, h, ih]
    · simp [List.filter_cons, List.countP_cons, h, ih]
      omega

/-- Round trip of the canonical quantity strings through parseInt, for the
whole range the quantity state can take. -/
theorem parseIntRound :
    ∀ m : Nat, m < 100 →
      jsIntToString (m : Int) ≠ "" ∧ jsParseInt (jsIntToString (m : Int)) = some (m : Int) := by
  decide

/-!
Claim theorems.
-/

/-- Claim C1: for every dialog state, the displayed total equals
(b + sum of selected add-on prices) multiplied by the quantity, where b is
the numeric value of the custom rate whenever the custom-rate string is
non-empty and the base price of the selected item otherwise; entering a
custom rate modifies neither the menu items nor the selected item; base
price 10.00 with one 2.50 add-on and quantity 3 yields 37.50, and custom
rate "7.5" makes b equal 7.5 while the item record keeps price 10.00. -/
theorem c1_total_formula :
    (∀ (s : DialogState) (sel : MenuItem), s.selectedItem = some sel →
      (s.customRate ≠ "" →
        total s = jsMul (jsAdd (jsNumber s.customRate) (some (addonsTotal s))) (numericQuantity s)) ∧
      (s.customRate = "" →
        total s = jsMul (jsAdd (some sel.price) (some (addonsTotal s))) (numericQuantity s))) ∧
    (∀ (v : String) (s : DialogState),
      (handleCustomRateChange v s).menuItems = s.menuItems ∧
      (handleCustomRateChange v s).selectedItem = s.selectedItem) ∧
    total c1ExampleState = some (75 / 2) ∧
    basePrice c1CustomRateState = some (15 / 2) ∧
    c1CustomRateState.selectedItem = some sampleItem ∧
    sampleItem.price = 10 := by
  refine ⟨?_, ?_, ?_, ?_, by decide, by decide⟩
  · intro s sel hsel
    constructor
    · intro hcr
      simp [total, basePrice, hcr]
    · intro hcr
      by_cases hp : sel.price = 0
      · simp [total, basePrice, hcr, hsel, hp]
      · simp [total, basePrice, hcr, hsel, hp]
  · intro v s
    unfold handleCustomRateChange
    constructor
    · split
      · rfl
      · split
        · rfl
        · split
          · rfl
          · rfl
    · split
      · rfl
      · split
        · rfl
        · split
          · rfl
          · rfl
  · have hq : jsParseInt "3" = some 3 := by decide
    simp [total, basePrice, numericQuantity, addonsTotal, c1ExampleState, baseDialog,
      sampleItem, sampleAddon, jsAdd, jsMul, hq]
    rw [Rat.mkRat_eq_divInt, Rat.divInt_eq_div]
    norm_num
  · have h75 : jsNumber "7.5" = some (mkRat 15 2) := by decide
    have hcr : c1CustomRateState.customRate = "7.5" := rfl
    simp [basePrice, hcr, h75]
    rw [Rat.mkRat_eq_divInt, Rat.divInt_eq_div]
    norm_num

/-- Claim C1 witness: the formula instantiated at the custom-rate fixture. -/
theorem c1_total_formula_witness :
    total c1CustomRateState
      = jsMul (jsAdd (jsNumber c1CustomRateState.customRate)
                 (some (addonsTotal c1CustomRateState)))
              (numericQuantity c1CustomRateState) :=
  (c1_total_formula.1 c1CustomRateState sampleItem rfl).1 (by decide)

/-- Claim C7: a failed detail fetch clears the cached doc, and whenever the
doc is absent or lacks the child tables, both variantDetails and
addonDetails are empty, so the dialog renders empty variant and add-on
sections. -/
theorem c7_detail_fetch_degrades :
    ∀ (s : DialogState) (doc : ItemDoc),
      (applyItemDocFetch s (Except.error ())).itemDoc = none ∧
      (s.itemDoc = none → addonDetails s = [] ∧ variantDetails s = []) ∧
      (s.itemDoc = some doc → doc.custom_pos_add_on_items = none → addonDetails s = []) ∧
      (s.itemDoc = some doc → doc.custom_pos_item_variants = none → variantDetails s = []) := by
  intro s doc
  refine ⟨?_, ?_, ?_, ?_⟩
  · rcases hsel : s.selectedItem with _ | sel <;> simp [applyItemDocFetch, hsel]
  · intro h
    exact ⟨by simp [addonDetails, h], by simp [variantDetails, h]⟩
  · intro h hn
    simp [addonDetails, h, hn]
  · intro h hn
    simp [variantDetails, h, hn]

/-- Claim C7 witness: at the fixture with no cached doc, both lists are
empty; a doc without child tables also yields empty lists. -/
theorem c7_detail_fetch_degrades_witness :
    addonDetails baseDialog = [] ∧ variantDetails baseDialog = [] :=
  (c7_detail_fetch_degrades baseDialog sampleDoc).2.1 rfl

/-- Claim C8 counterexample: the string "5abc" neither is empty nor denotes
a number (Number gives NaN on it), yet the handler accepts it and stores it
verbatim, changing the previously empty custom rate. -/
theorem c8_custom_rate_counterexample :
    specRateAcceptedB "5abc" = false ∧
    baseDialog.customRate = "" ∧
    (handleCustomRateChange "5abc" baseDialog).customRate = "5abc" ∧
    "5abc" ≠ "" := by
  refine ⟨by decide, by decide, by decide, by decide⟩

/-- Claim C8 as amended: the stored custom rate changes only if v is empty
(clearing the override) or parseFloat of v (its longest numeric prefix)
yields a nonnegative number, in which case v is stored verbatim, trailing
non-numeric characters included; a NaN or negative parse leaves the state
untouched, with no error raised. -/
theorem c8_amended_custom_rate :
    ∀ (v : String) (s : DialogState),
      (v = "" → (handleCustomRateChange v s).customRate = "") ∧
      (v ≠ "" → jsParseFloat v = none → handleCustomRateChange v s = s) ∧
      (∀ q, jsParseFloat v = some q → 0 ≤ q → v ≠ "" →
        (handleCustomRateChange v s).customRate = v) ∧
      (∀ q, jsParseFloat v = some q → q < 0 → v ≠ "" →
        handleCustomRateChange v s = s) := by
  intro v s
  refine ⟨?_, ?_, ?_, ?_⟩
  · intro h
    simp [handleCustomRateChange, h]
  · intro hne h
    simp [handleCustomRateChange, hne, h]
  · intro q hq hq0 hne
    simp [handleCustomRateChange, hne, hq, hq0]
  · intro q hq hneg hne
    have hnot : ¬ (0 ≤ q) := not_le.mpr hneg
    simp [handleCustomRateChange, hne, hq, hnot]

/-- Claim C8 witness: the amended rule applied to the accepted input "7.5". -/
theorem c8_amended_custom_rate_witness :
    (handleCustomRateChange "7.5" baseDialog).customRate = "7.5" :=
  (c8_amended_custom_rate "7.5" baseDialog).2.2.1 (mkRat 15 2) (by decide) (by decide) (by decide)

/-- Claim C10: committing with an empty, non-numeric or zero quantity
leaves the cart untouched, removal included, even in edit mode with an
itemToReplace; and the commit button is disabled whenever the numeric
quantity is zero. -/
theorem c10_zero_or_invalid_quantity :
    ∀ s : DialogState,
      (s.quantity = "" → handleAddToOrder s = s.activeOrders) ∧
      (jsParseInt s.quantity = none → handleAddToOrder s = s.activeOrders) ∧
      (jsParseInt s.quantity = some 0 → handleAddToOrder s = s.activeOrders) ∧
      (numericQuantity s = some 0 → isCommitDisabled s = true) := by
  intro s
  refine ⟨?_, ?_, ?_, ?_⟩
  · intro h
    have hp : jsParseInt s.quantity = none := by rw [h]; decide
    simp [handleAddToOrder, hp]
  · intro h
    simp [handleAddToOrder, h]
  · intro h
    simp [handleAddToOrder, h]
  · intro h
    simp [isCommitDisabled, h]

/-- Claim C10 witness: the edit-mode fixture at quantity "0" keeps its cart
line. -/
theorem c10_zero_or_invalid_quantity_witness :
    handleAddToOrder c10State = c10State.activeOrders :=
  (c10_zero_or_invalid_quantity c10State).2.2.1 (by decide)

/-- Claim C2: committing the dialog in edit mode with a valid non-zero
quantity n and an itemToReplace carrying a (truthy) uniqueId removes
exactly the one cart line holding that uniqueId, then appends exactly one
new main line plus one independent line per selected add-on, every added
line carrying quantity n. -/
theorem c2_edit_commit :
    ∀ (s : DialogState) (sel : MenuItem) (rep : OrderItem) (uid : String) (n : Int),
      s.selectedItem = some sel →
      s.editMode = true →
      s.itemToReplace = some rep →
      rep.uniqueId = some uid →
      uid ≠ "" →
      jsParseInt s.quantity = some n →
      n ≠ 0 →
      s.activeOrders.countP (fun line => line.uniqueId == some uid) = 1 →
      handleAddToOrder s =
        s.activeOrders.filter (fun line => !(line.uniqueId == some uid))
          ++ (mainOrderLine s sel n :: s.selectedAddons.map (addonOrderLine s n)) ∧
      (s.activeOrders.filter (fun line => !(line.uniqueId == some uid))).length
          = s.activeOrders.length - 1 ∧
      (mainOrderLine s sel n).quantity = n ∧
      (∀ line ∈ s.selectedAddons.map (addonOrderLine s n), line.quantity = n) ∧
      (mainOrderLine s sel n :: s.selectedAddons.map (addonOrderLine s n)).length
          = 1 + s.selectedAddons.length := by
  intro s sel rep uid n hsel hedit hrep huid hune hq hn hcount
  refine ⟨?_, ?_, rfl, ?_, ?_⟩
  · unfold handleAddToOrder
    simp only [hq, hsel, hedit, hrep, huid, hn, hune]
    rw [if_pos hune]
    rw [foldl_addToOrder_map]
    simp [addToOrder, removeFromOrder]
  · have h := length_filter_not (fun line => line.uniqueId == some uid) s.activeOrders
    rw [hcount] at h
    exact h
  · intro line hline
    rcases List.mem_map.mp hline with ⟨a, ha, rfl⟩
    unfold addonOrderLine
    split
    · rfl
    · rfl
  · simp [Nat.add_comm]

/-- Claim C2 witness: the commit equation at the edit fixture, replacing
the line uid-1 at quantity 2 with one selected add-on. -/
theorem c2_edit_commit_witness :
    handleAddToOrder c2State =
      c2State.activeOrders.filter (fun line => !(line.uniqueId == some "uid-1"))
        ++ (mainOrderLine c2State sampleItem 2
              :: c2State.selectedAddons.map (addonOrderLine c2State 2)) :=
  (c2_edit_commit c2State sampleItem c2ReplacedLine "uid-1" 2 rfl rfl rfl rfl
    (by decide) (by decide) (by decide) (by decide)).1

/-- Claim C3 counterexample: a cart line recorded without a variant and
without an add-on list is matched by the dialog even though the initial
variant is VAR-001 and the initial add-on set is nonempty, so the match
predicate is not the claimed exact equality of variant id and add-on set;
the line is found and used for pre-filling. -/
theorem c3_match_counterexample :
    cartLineMatches c3State sampleItem c3Order = true ∧
    specSameCustomization c3State sampleItem c3Order = false ∧
    existingCartItem c3State = some c3Order ∧
    c3State.initialVariant = some sampleVariant ∧
    c3State.initialAddons = [sampleAddon] ∧
    c3Order.selectedVariant = none ∧
    c3Order.selectedAddons = none := by
  refine ⟨by decide, by decide, by decide, by decide, by decide, by decide, by decide⟩

/-- Claim C3 as amended: a cart line counts as the same customization iff
its item id equals the selected item id, any variant it records has the id
of the initial variant (a line recording no variant passes regardless), and
any add-on list it records has the length of the initial add-on list with
every recorded add-on id present among the initial ids (a line recording no
add-on list passes regardless); when such a line is found outside edit
mode, quantity, comment and custom rate are pre-filled from it. -/
theorem c3_amended_same_customization :
    ∀ (s : DialogState) (sel : MenuItem) (order : OrderItem),
      (cartLineMatches s sel order = true ↔
        (order.id = sel.id ∧
         (∀ v, order.selectedVariant = some v →
            ∃ iv, s.initialVariant = some iv ∧ v.id = iv.id) ∧
         (∀ ads, order.selectedAddons = some ads →
            ads.length = s.initialAddons.length ∧
            ∀ a ∈ ads, ∃ ia ∈ s.initialAddons, ia.id = a.id))) ∧
      (s.editMode = false → s.selectedItem = some sel → existingCartItem s = some order →
        (applyCartPrefill s).quantity = jsIntToString order.quantity ∧
        (applyCartPrefill s).comments = jsOrStr order.comment "" ∧
        (applyCartPrefill s).customRate = jsOrStr (order.customRate.map jsNumToString) "") := by
  intro s sel order
  constructor
  · unfold cartLineMatches
    rcases hv : order.selectedVariant with _ | v <;>
    rcases hiv : s.initialVariant with _ | iv <;>
    rcases ha : order.selectedAddons with _ | ads <;>
      simp [List.all_eq_true, List.any_eq_true, beq_iff_eq, and_assoc]
  · intro hedit hsel hex
    unfold applyCartPrefill
    simp [hedit, hsel, hex]

/-- Claim C3 witness: the amended rule pre-filling from the matched fixture
line (quantity 2, no comment, no custom rate). -/
theorem c3_amended_witness :
    (applyCartPrefill c3State).quantity = jsIntToString c3Order.quantity ∧
    (applyCartPrefill c3State).comments = jsOrStr c3Order.comment "" ∧
    (applyCartPrefill c3State).customRate = jsOrStr (c3Order.customRate.map jsNumToString) "" :=
  (c3_amended_same_customization c3State sampleItem c3Order).2 rfl rfl (by decide)

/-- Claim C4 counterexample: "12.9" does not denote an integer in [0, 99],
yet the handler replaces the prior quantity "3" with "12" because parseInt
truncates at the decimal point, so out-of-range or non-numeric input does
not always leave the prior quantity unchanged. -/
theorem c4_quantity_counterexample :
    specQuantityAcceptedB "12.9" = false ∧
    c4PriorState.quantity = "3" ∧
    (handleQuantityChange "12.9" c4PriorState).quantity = "12" ∧
    ("12" : String) ≠ "3" ∧ ("12" : String) ≠ "12.9" := by
  refine ⟨by decide, by decide, by decide, by decide, by decide⟩

/-- Claim C4 as amended: the quantity input accepts q iff q is empty
(transient no-value state) or parseInt of q yields a value in [0, 99], in
which case the canonical decimal string of that value is stored; a NaN or
out-of-range parse leaves the state untouched with no error; increment and
decrement keep the quantity inside [0, 99]. -/
theorem c4_amended_quantity_validation :
    (∀ (q : String) (s : DialogState),
      (q = "" → (handleQuantityChange q s).quantity = "") ∧
      (q ≠ "" → jsParseInt q = none → handleQuantityChange q s = s) ∧
      (∀ n, q ≠ "" → jsParseInt q = some n → 0 ≤ n → n ≤ 99 →
        (handleQuantityChange q s).quantity = jsIntToString n) ∧
      (∀ n, q ≠ "" → jsParseInt q = some n → (n < 0 ∨ 99 < n) →
        handleQuantityChange q s = s)) ∧
    (∀ (s : DialogState) (c : Int), currentQuantityNum s = some c → 0 ≤ c → c ≤ 99 →
      (∃ m : Int, currentQuantityNum (handleIncrement s) = some m ∧ 0 ≤ m ∧ m ≤ 99) ∧
      (∃ m : Int, currentQuantityNum (handleDecrement s) = some m ∧ 0 ≤ m ∧ m ≤ 99)) := by
  constructor
  · intro q s
    refine ⟨?_, ?_, ?_, ?_⟩
    · intro h
      simp [handleQuantityChange, h]
    · intro hne h
      simp [handleQuantityChange, hne, h]
    · intro n hne h h0 h99
      have hin : 0 ≤ n ∧ n ≤ 99 := ⟨h0, h99⟩
      simp [handleQuantityChange, hne, h, hin]
    · intro n hne h hout
      have hnin : ¬ (0 ≤ n ∧ n ≤ 99) := by omega
      simp [handleQuantityChange, hne, h, hnin]
  · intro s c hc h0 h99
    have key : ∀ m : Int, 0 ≤ m → m ≤ 99 →
        currentQuantityNum { s with quantity := jsIntToString m } = some m := by
      intro m hm0 hm99
      have hmn : ((m.toNat : Nat) : Int) = m := by omega
      have hlt : m.toNat < 100 := by omega
      have hr := parseIntRound m.toNat hlt
      unfold currentQuantityNum
      rw [show jsIntToString m = jsIntToString ((m.toNat : Nat) : Int) by rw [hmn]]
      rw [if_neg hr.1, hr.2, hmn]
    have hinc : handleIncrement s
        = if c < 99 then { s with quantity := jsIntToString (c + 1) } else s := by
      unfold handleIncrement
      rw [show (if s.quantity = "" then some 0 else jsParseInt s.quantity) = some c from hc]
    have hdec : handleDecrement s
        = if c > 0 then { s with quantity := jsIntToString (c - 1) } else s := by
      unfold handleDecrement
      rw [show (if s.quantity = "" then some 0 else jsParseInt s.quantity) = some c from hc]
    constructor
    · rw [hinc]
      by_cases hlt : c < 99
      · rw [if_pos hlt]
        exact ⟨c + 1, key (c + 1) (by omega) (by omega), by omega, by omega⟩
      · rw [if_neg hlt]
        exact ⟨c, hc, h0, h99⟩
    · rw [hdec]
      by_cases hgt : c > 0
      · rw [if_pos hgt]
        exact ⟨c - 1, key (c - 1) (by omega) (by omega), by omega, by omega⟩
      · rw [if_neg hgt]
        exact ⟨c, hc, h0, h99⟩

/-- Claim C4 witness: the amended rule accepting "7" into the canonical
string, at the base fixture. -/
theorem c4_amended_quantity_witness :
    (handleQuantityChange "7" baseDialog).quantity = jsIntToString 7 :=
  (c4_amended_quantity_validation.1 "7" baseDialog).2.2.1 7 (by decide) (by decide)
    (by decide) (by decide)

/-- Keystroke runs in rev0: with a callback bound, every update is logged
against that callback and the binding survives. -/
theorem run0_updates (vs : List String) :
    ∀ (r : Run0) (cb : CB), r.st.currentOnChange = some cb →
      (run0 (updateEvents vs) r).log = r.log ++ vs.map (fun v => (cb, v)) ∧
      (run0 (updateEvents vs) r).st.currentOnChange = some cb := by
  induction vs with
  | nil => intro r cb h; simp [run0, updateEvents, h]
  | cons v t ih =>
    intro r cb h
    have hstep : step0 r (KBEvent.updateK v)
        = { st := { r.st with keyboardInputValue := v }
            env := deliver r.env cb v
            log := r.log ++ [(cb, v)] } := by
      unfold step0
      rw [h]
    have hstep_cb : (step0 r (KBEvent.updateK v)).st.currentOnChange = some cb := by
      rw [hstep]
      exact h
    have hres := ih (step0 r (KBEvent.updateK v)) cb hstep_cb
    constructor
    · have h1 : (run0 (updateEvents (v :: t)) r).log
          = (run0 (updateEvents t) (step0 r (KBEvent.updateK v))).log := rfl
      rw [h1, hres.1, hstep]
      simp
    · have h1 : (run0 (updateEvents (v :: t)) r).st
          = (run0 (updateEvents t) (step0 r (KBEvent.updateK v))).st := rfl
      rw [h1, hres.2]

/-- Keystroke runs in rev1, same shape as rev0. -/
theorem run1_updates (vs : List String) :
    ∀ (r : Run1) (cb : CB), r.st.currentOnChange = some cb →
      (run1 (updateEvents vs) r).log = r.log ++ vs.map (fun v => (cb, v)) ∧
      (run1 (updateEvents vs) r).st.currentOnChange = some cb := by
  induction vs with
  | nil => intro r cb h; simp [run1, updateEvents, h]
  | cons v t ih =>
    intro r cb h
    have hstep : step1 r (KBEvent.updateK v)
        = { st := r.st, env := deliver r.env cb v, log := r.log ++ [(cb, v)] } := by
      unfold step1
      rw [h]
    have hstep_cb : (step1 r (KBEvent.updateK v)).st.currentOnChange = some cb := by
      rw [hstep]
      exact h
    have hres := ih (step1 r (KBEvent.updateK v)) cb hstep_cb
    constructor
    · have h1 : (run1 (updateEvents (v :: t)) r).log
          = (run1 (updateEvents t) (step1 r (KBEvent.updateK v))).log := rfl
      rw [h1, hres.1, hstep]
      simp
    · have h1 : (run1 (updateEvents (v :: t)) r).st
          = (run1 (updateEvents t) (step1 r (KBEvent.updateK v))).st := rfl
      rw [h1, hres.2]

/-- Claim C5: after the keyboard is opened for input A and then for input
B, the active binding is B, and every subsequent updateKeyboardValue call
delivers only to B, never to A, in either revision of the keyboard
context. -/
theorem c5_keyboard_rebinding :
    ∀ (a b : String) (cbA cbB : CB) (vs : List String) (r : Run0) (w : Run1),
      cbA ≠ cbB →
      (run0 (updateEvents vs) (run0 [KBEvent.openK a cbA, KBEvent.openK b cbB] r)).log
        = r.log ++ vs.map (fun v => (cbB, v)) ∧
      (run1 (updateEvents vs) (run1 [KBEvent.openK a cbA, KBEvent.openK b cbB] w)).log
        = w.log ++ vs.map (fun v => (cbB, v)) ∧
      (∀ p ∈ vs.map (fun v => (cbB, v)), p.1 = cbB ∧ p.1 ≠ cbA) := by
  intro a b cbA cbB vs r w hne
  have h0 : run0 [KBEvent.openK a cbA, KBEvent.openK b cbB] r
      = { st := { isKeyboardOpen := true, activeInput := some b,
                  currentOnChange := some cbB, keyboardInputValue := r.env cbB }
          env := r.env
          log := r.log } := rfl
  have h1 : run1 [KBEvent.openK a cbA, KBEvent.openK b cbB] w
      = { st := { isKeyboardOpen := true, activeInput := some b, currentOnChange := some cbB }
          env := w.env
          log := w.log } := rfl
  refine ⟨?_, ?_, ?_⟩
  · rw [h0]
    exact (run0_updates vs _ cbB rfl).1
  · rw [h1]
    exact (run1_updates vs _ cbB rfl).1
  · intro p hp
    rcases List.mem_map.mp hp with ⟨v, hv, rfl⟩
    exact ⟨rfl, fun hcon => hne hcon.symm⟩

/-- Claim C5 witness: opening comments then customRate and typing twice
logs both keystrokes against callback 1 only. -/
theorem c5_keyboard_rebinding_witness :
    (run0 (updateEvents ["8", "85"])
        (run0 [KBEvent.openK "comments" 0, KBEvent.openK "customRate" 1] (initRun0 sampleEnv))).log
      = (initRun0 sampleEnv).log ++ ["8", "85"].map (fun v => ((1 : CB), v)) ∧
    (run1 (updateEvents ["8", "85"])
        (run1 [KBEvent.openK "comments" 0, KBEvent.openK "customRate" 1] (initRun1 sampleEnv))).log
      = (initRun1 sampleEnv).log ++ ["8", "85"].map (fun v => ((1 : CB), v)) ∧
    (∀ p ∈ (["8", "85"] : List String).map (fun v => ((1 : CB), v)), p.1 = 1 ∧ p.1 ≠ 0) :=
  c5_keyboard_rebinding "comments" "customRate" 0 1 ["8", "85"]
    (initRun0 sampleEnv) (initRun1 sampleEnv) (by decide)

/-- One step of the simulation between the two keyboard revisions: the
projection, the input environment, and the rev0 buffer invariant (the
buffer equals the value held by the bound input) are all preserved. -/
theorem kbSimStep (e : KBEvent) (r0 : Run0) (r1 : Run1)
    (hproj : projKB r0.st = r1.st) (henv : r0.env = r1.env)
    (hinv : ∀ cb, r0.st.currentOnChange = some cb → r0.env cb = r0.st.keyboardInputValue) :
    projKB (step0 r0 e).st = (step1 r1 e).st ∧
    (step0 r0 e).env = (step1 r1 e).env ∧
    (∀ cb, (step0 r0 e).st.currentOnChange = some cb →
      (step0 r0 e).env cb = (step0 r0 e).st.keyboardInputValue) := by
  have hcb : r1.st.currentOnChange = r0.st.currentOnChange := by rw [← hproj]; rfl
  cases e with
  | openK inputId cb =>
    refine ⟨rfl, henv, ?_⟩
    intro cb' h
    obtain rfl : cb = cb' := Option.some.inj h
    rfl
  | updateK v =>
    cases hoc : r0.st.currentOnChange with
    | some cb =>
      have hoc1 : r1.st.currentOnChange = some cb := by rw [hcb, hoc]
      refine ⟨?_, ?_, ?_⟩
      · simp only [step0, step1, hoc, hoc1]
        rw [← hproj]
        simp [projKB, hoc]
      · simp only [step0, step1, hoc, hoc1, henv]
      · intro cb' h
        simp only [step0, hoc] at h ⊢
        obtain rfl : cb = cb' := Option.some.inj h
        simp [deliver]
    | none =>
      have hoc1 : r1.st.currentOnChange = none := by rw [hcb, hoc]
      refine ⟨?_, ?_, ?_⟩
      · simp only [step0, step1, hoc, hoc1]
        rw [← hproj]
        simp [projKB, hoc]
      · simp only [step0, step1, hoc, hoc1]
        exact henv
      · intro cb' h
        simp only [step0, hoc] at h
        exact Option.noConfusion h
  | closeK =>
    cases hoc : r0.st.currentOnChange with
    | some cb =>
      have hflush : deliver r0.env cb r0.st.keyboardInputValue = r0.env := by
        funext c
        unfold deliver
        by_cases hceq : c = cb
        · subst hceq
          rw [if_pos rfl, hinv c hoc]
        · rw [if_neg hceq]
      refine ⟨?_, ?_, ?_⟩
      · simp only [step0, step1, hoc]
        rfl
      · simp only [step0, step1, hoc]
        rw [hflush, henv]
      · intro cb' h
        simp only [step0, hoc] at h
        cases h
    | none =>
      refine ⟨?_, ?_, ?_⟩
      · simp only [step0, step1, hoc]
        rfl
      · simp only [step0, step1, hoc]
        exact henv
      · intro cb' h
        simp only [step0, hoc] at h
        cases h

/-- Simulation between the revisions over whole traces. -/
theorem kbSim (events : List KBEvent) :
    ∀ (r0 : Run0) (r1 : Run1),
      projKB r0.st = r1.st → r0.env = r1.env →
      (∀ cb, r0.st.currentOnChange = some cb → r0.env cb = r0.st.keyboardInputValue) →
      projKB (run0 events r0).st = (run1 events r1).st ∧
      (run0 events r0).env = (run1 events r1).env ∧
      (∀ cb, (run0 events r0).st.currentOnChange = some cb →
        (run0 events r0).env cb = (run0 events r0).st.keyboardInputValue) := by
  induction events with
  | nil => intro r0 r1 hproj henv hinv; exact ⟨hproj, henv, hinv⟩
  | cons e t ih =>
    intro r0 r1 hproj henv hinv
    have hs := kbSimStep e r0 r1 hproj henv hinv
    exact ih (step0 r0 e) (step1 r1 e) hs.1 hs.2.1 hs.2.2

/-- closeKeyboard in rev0 always ends closed with no binding. -/
theorem step0_close_closed (r : Run0) :
    (step0 r KBEvent.closeK).st.isKeyboardOpen = false ∧
    (step0 r KBEvent.closeK).st.activeInput = none ∧
    (step0 r KBEvent.closeK).st.currentOnChange = none := by
  rcases hoc : r.st.currentOnChange with _ | cb <;>
    simp [step0, hoc]

/-- Claim C6: the two closeKeyboard revisions agree on the routing state
and on the values the inputs hold after any trace; closing leaves both
revisions with the keyboard closed, no active input and no stored
callback; and the rev0 buffer always equals the value the bound input
already holds (the seed, or the last value delivered), so the extra flush
on close never delivers a value the input does not already hold. -/
theorem c6_close_revisions_equivalent :
    ∀ (events : List KBEvent) (env : CBEnv),
      (projKB (run0 events (initRun0 env)).st = (run1 events (initRun1 env)).st ∧
       (run0 events (initRun0 env)).env = (run1 events (initRun1 env)).env) ∧
      ((run0 (events ++ [KBEvent.closeK]) (initRun0 env)).st.isKeyboardOpen = false ∧
       (run0 (events ++ [KBEvent.closeK]) (initRun0 env)).st.activeInput = none ∧
       (run0 (events ++ [KBEvent.closeK]) (initRun0 env)).st.currentOnChange = none ∧
       (run1 (events ++ [KBEvent.closeK]) (initRun1 env)).st.isKeyboardOpen = false ∧
       (run1 (events ++ [KBEvent.closeK]) (initRun1 env)).st.activeInput = none ∧
       (run1 (events ++ [KBEvent.closeK]) (initRun1 env)).st.currentOnChange = none ∧
       (run0 (events ++ [KBEvent.closeK]) (initRun0 env)).env
         = (run1 (events ++ [KBEvent.closeK]) (initRun1 env)).env) ∧
      (∀ cb, (run0 events (initRun0 env)).st.currentOnChange = some cb →
        (run0 events (initRun0 env)).env cb
          = (run0 events (initRun0 env)).st.keyboardInputValue) := by
  intro events env
  have hinit : ∀ cb, (initRun0 env).st.currentOnChange = some cb →
      (initRun0 env).env cb = (initRun0 env).st.keyboardInputValue := by
    intro cb h
    exact Option.noConfusion h
  have hsim := kbSim events (initRun0 env) (initRun1 env) rfl rfl hinit
  have hsim2 := kbSim (events ++ [KBEvent.closeK]) (initRun0 env) (initRun1 env) rfl rfl hinit
  have hrun0 : run0 (events ++ [KBEvent.closeK]) (initRun0 env)
      = step0 (run0 events (initRun0 env)) KBEvent.closeK := by
    unfold run0
    rw [List.foldl_append]
    rfl
  have hrun1 : run1 (events ++ [KBEvent.closeK]) (initRun1 env)
      = step1 (run1 events (initRun1 env)) KBEvent.closeK := by
    unfold run1
    rw [List.foldl_append]
    rfl
  have hclosed := step0_close_closed (run0 events (initRun0 env))
  refine ⟨⟨hsim.1, hsim.2.1⟩, ⟨?_, ?_, ?_, ?_, ?_, ?_, hsim2.2.1⟩, hsim.2.2⟩
  · rw [hrun0]; exact hclosed.1
  · rw [hrun0]; exact hclosed.2.1
  · rw [hrun0]; exact hclosed.2.2
  · rw [hrun1]; rfl
  · rw [hrun1]; rfl
  · rw [hrun1]; rfl

/-- Claim C6 witness: after opening the customRate input the rev0 buffer
equals the value its input holds. -/
theorem c6_close_revisions_equivalent_witness :
    (run0 [KBEvent.openK "customRate" 5] (initRun0 sampleEnv)).env 5
      = (run0 [KBEvent.openK "customRate" 5] (initRun0 sampleEnv)).st.keyboardInputValue :=
  (c6_close_revisions_equivalent [KBEvent.openK "customRate" 5] sampleEnv).2.2 5 rfl

/-- Claim C9: with an empty search query the filtered list is exactly the
menu items matching the selected category and sub-category (an item passes
when no category, or no sub-category, is selected), with the quick filter
as the only other predicate applied. -/
theorem c9_empty_search_restores :
    ∀ st : MenuState, st.searchQuery = "" →
      filteredItems st
        = st.menuItems.filter
            (fun item => specCategorySubMatch st item && specQuickFilterMatch st item) := by
  intro st hq
  unfold filteredItems
  apply List.filter_congr
  intro item hmem
  unfold itemMatchesFilters specCategorySubMatch specQuickFilterMatch
  rw [hq]
  simp [Bool.and_assoc]

/-- Claim C9 witness: the fixture menu state with empty search filters down
to the category and sub-category match plus quick filter. -/
theorem c9_empty_search_restores_witness :
    filteredItems sampleMenuState
      = sampleMenuState.menuItems.filter
          (fun item => specCategorySubMatch sampleMenuState item
            && specQuickFilterMatch sampleMenuState item) :=
  c9_empty_search_restores sampleMenuState rfl
